import Mathlib

/-!
Verification of the hash-auth service against its specification.

This file shallowly embeds the two source files of the repository
(src/index.ts and the SQLite wrapper src/db.ts) in Lean 4:

* the deterministic salted email hashing function createEmailHash,
  including a full executable SHA-256 over UTF-8 bytes (the source calls
  the platform primitive crypto.subtle.digest with algorithm SHA-256);
* the in-memory session registry (a Set of opaque token strings) and
  createSessionToken;
* the user table of db.ts (insert, lookup by email hash, list, password
  update) as a list of records with an auto-incrementing id;
* the six HTTP operations of the Bun.serve fetch handler (register,
  login, users, reset-password, logout, debug/test-hash) together with
  the route dispatch, each returning the response the source builds, the
  successor state, and a trace of the externally visible effects it
  performed (body parsing, hashing, database reads and writes, session
  mutations), in the order the source performs them.

The password hashing primitives Bun.password.hash and Bun.password.verify
are external to the repository (Argon2id inside the Bun runtime); the
operations are therefore parametrised over a PasswordApi record supplying
them, and theorems quantify over that record.
-/

/-! ## 32-bit arithmetic helpers (Nat with explicit reduction mod 2^32) -/

/-- 2 to the 32nd power, the word modulus of SHA-256. -/
def w32 : Nat := 4294967296

/-- Addition of 32-bit words. -/
def add32 (a b : Nat) : Nat := (a + b) % w32

/-- Right rotation of a 32-bit word by n bits. -/
def rotr32 (n x : Nat) : Nat := ((x >>> n) ||| (x <<< (32 - n))) % w32

/-- Bitwise complement of a 32-bit word. -/
def not32 (x : Nat) : Nat := x ^^^ 4294967295

/-! ## SHA-256 (FIPS 180-4), byte-level, big-endian -/

/-- SHA-256 choice function. -/
def shaCh (x y z : Nat) : Nat := (x &&& y) ^^^ (not32 x &&& z)

/-- SHA-256 majority function. -/
def shaMaj (x y z : Nat) : Nat := (x &&& y) ^^^ (x &&& z) ^^^ (y &&& z)

/-- SHA-256 big sigma 0. -/
def bsig0 (x : Nat) : Nat := rotr32 2 x ^^^ rotr32 13 x ^^^ rotr32 22 x

/-- SHA-256 big sigma 1. -/
def bsig1 (x : Nat) : Nat := rotr32 6 x ^^^ rotr32 11 x ^^^ rotr32 25 x

/-- SHA-256 small sigma 0. -/
def ssig0 (x : Nat) : Nat := rotr32 7 x ^^^ rotr32 18 x ^^^ (x >>> 3)

/-- SHA-256 small sigma 1. -/
def ssig1 (x : Nat) : Nat := rotr32 17 x ^^^ rotr32 19 x ^^^ (x >>> 10)

/-- The 64 SHA-256 round constants. -/
def shaK : List Nat :=
  [
   1116352408, 1899447441, 3049323471, 3921009573, 961987163,
   1508970993, 2453635748, 2870763221, 3624381080, 310598401,
   607225278, 1426881987, 1925078388, 2162078206, 2614888103,
   3248222580, 3835390401, 4022224774, 264347078, 604807628,
   770255983, 1249150122, 1555081692, 1996064986, 2554220882,
   2821834349, 2952996808, 3210313671, 3336571891, 3584528711,
   113926993, 338241895, 666307205, 773529912, 1294757372,
   1396182291, 1695183700, 1986661051, 2177026350, 2456956037,
   2730485921, 2820302411, 3259730800, 3345764771, 3516065817,
   3600352804, 4094571909, 275423344, 430227734, 506948616,
   659060556, 883997877, 958139571, 1322822218, 1537002063,
   1747873779, 1955562222, 2024104815, 2227730452, 2361852424,
   2428436474, 2756734187, 3204031479, 3329325298]

/-- The SHA-256 working state: eight 32-bit words. -/
structure Sha8 where
  a : Nat
  b : Nat
  c : Nat
  d : Nat
  e : Nat
  f : Nat
  g : Nat
  h : Nat
deriving DecidableEq, Repr

/-- The SHA-256 initial hash value. -/
def shaInit : Sha8 :=
  ⟨1779033703, 3144134277, 1013904242, 2773480762,
   1359893119, 2600822924, 528734635, 1541459225⟩

/-- k bytes of n, big-endian. -/
def beBytes : Nat → Nat → List Nat
  | 0, _ => []
  | k + 1, n => beBytes k (n / 256) ++ [n % 256]

/-- SHA-256 message padding: a 0x80 byte, zeros to 56 mod 64, and the
bit length as 8 big-endian bytes. -/
def shaPad (ms : List Nat) : List Nat :=
  let len := ms.length
  let zeros := (119 - len % 64) % 64
  ms ++ [0x80] ++ List.replicate zeros 0 ++ beBytes 8 (len * 8)

/-- Split a byte list into 64-byte blocks. -/
def toBlocks : List Nat → List (List Nat)
  | [] => []
  | b :: rest => ((b :: rest).take 64) :: toBlocks ((b :: rest).drop 64)
termination_by l => l.length
decreasing_by simp [List.length_drop]; omega

/-- Combine bytes into 32-bit words, big-endian, four at a time. -/
def bytesToWords : List Nat → List Nat
  | a :: b :: c :: d :: rest => (((a * 256 + b) * 256 + c) * 256 + d) :: bytesToWords rest
  | _ => []

/-- Iterate a function n times. -/
def iterN (f : α → α) : Nat → α → α
  | 0, x => x
  | n + 1, x => iterN f n (f x)

/-- One step of the SHA-256 message-schedule extension: append the next
word derived from the words 2, 7, 15 and 16 places back. -/
def extendStep (w : List Nat) : List Nat :=
  let i := w.length
  w ++ [add32 (add32 (ssig1 (w.getD (i - 2) 0)) (w.getD (i - 7) 0))
              (add32 (ssig0 (w.getD (i - 15) 0)) (w.getD (i - 16) 0))]

/-- One SHA-256 compression round; kw pairs the round constant with the
scheduled message word. -/
def shaRound (s : Sha8) (kw : Nat × Nat) : Sha8 :=
  let t1 := add32 s.h (add32 (bsig1 s.e) (add32 (shaCh s.e s.f s.g) (add32 kw.1 kw.2)))
  let t2 := add32 (bsig0 s.a) (shaMaj s.a s.b s.c)
  ⟨add32 t1 t2, s.a, s.b, s.c, add32 s.d t1, s.e, s.f, s.g⟩

/-- Process one 64-byte block into the running hash value. -/
def shaBlock (hs : Sha8) (block : List Nat) : Sha8 :=
  let w := iterN extendStep 48 (bytesToWords block)
  let s := (shaK.zip w).foldl shaRound hs
  ⟨add32 hs.a s.a, add32 hs.b s.b, add32 hs.c s.c, add32 hs.d s.d,
   add32 hs.e s.e, add32 hs.f s.f, add32 hs.g s.g, add32 hs.h s.h⟩

/-- SHA-256 of a byte list, as 32 bytes. -/
def sha256 (ms : List Nat) : List Nat :=
  let f := ((toBlocks (shaPad ms)).foldl shaBlock shaInit)
  beBytes 4 f.a ++ beBytes 4 f.b ++ beBytes 4 f.c ++ beBytes 4 f.d ++
  beBytes 4 f.e ++ beBytes 4 f.f ++ beBytes 4 f.g ++ beBytes 4 f.h

/-- Lowercase hexadecimal digit for n below 16. -/
def hexDigit (n : Nat) : Char :=
  "0123456789abcdef".data.getD n '0'

/-- A byte as two lowercase hexadecimal characters, zero-padded, as the
source's byte.toString(16).padStart(2, "0") produces. -/
def byteHex (b : Nat) : List Char := [hexDigit (b / 16), hexDigit (b % 16)]

/-- SHA-256 of a byte list as a lowercase hex string of 64 characters. -/
def sha256hex (ms : List Nat) : String :=
  String.mk (((sha256 ms).map byteHex).flatten)

/-! ## UTF-8 encoding (the source's TextEncoder) -/

/-- UTF-8 encoding of one character. -/
def utf8Char (c : Char) : List Nat :=
  let n := c.toNat
  if n < 0x80 then [n]
  else if n < 0x800 then
    [0xC0 ||| (n >>> 6), 0x80 ||| (n &&& 0x3F)]
  else if n < 0x10000 then
    [0xE0 ||| (n >>> 12), 0x80 ||| ((n >>> 6) &&& 0x3F), 0x80 ||| (n &&& 0x3F)]
  else
    [0xF0 ||| (n >>> 18), 0x80 ||| ((n >>> 12) &&& 0x3F),
     0x80 ||| ((n >>> 6) &&& 0x3F), 0x80 ||| (n &&& 0x3F)]

/-- UTF-8 encoding of a string, the byte list TextEncoder.encode yields. -/
def utf8 (s : String) : List Nat := (s.data.map utf8Char).flatten

/-! ## JavaScript string operations used by the source -/

/-- Lowercasing of one character as the source's toLowerCase performs it
on the ASCII range (other characters pass through unchanged; the inputs
the claims concern are ASCII). -/
def jsToLowerChar (c : Char) : Char :=
  if 'A' ≤ c ∧ c ≤ 'Z' then Char.ofNat (c.toNat + 32) else c

/-- Uppercasing of one character on the ASCII range, for the source's
toUpperCase in the debug endpoint. -/
def jsToUpperChar (c : Char) : Char :=
  if 'a' ≤ c ∧ c ≤ 'z' then Char.ofNat (c.toNat - 32) else c

/-- The whitespace characters String.prototype.trim removes (the ASCII
ones plus no-break space, line and paragraph separators and the BOM). -/
def isJsWhitespace (c : Char) : Bool :=
  c = ' ' ∨ c = '\t' ∨ c = '\n' ∨ c = '\r' ∨ c.toNat = 11 ∨ c.toNat = 12 ∨
  c.toNat = 0xA0 ∨ c.toNat = 0x2028 ∨ c.toNat = 0x2029 ∨ c.toNat = 0xFEFF

/-- Remove leading and trailing whitespace from a character list, as the
source's trim does. -/
def jsTrimChars (l : List Char) : List Char :=
  ((l.dropWhile isJsWhitespace).reverse.dropWhile isJsWhitespace).reverse

/-- The source's email.toLowerCase().trim() normalisation. -/
def normalizeEmail (email : String) : String :=
  String.mk (jsTrimChars (email.data.map jsToLowerChar))

/-- The source's s.toUpperCase(), used by the debug endpoint. -/
def jsToUpper (s : String) : String :=
  String.mk (s.data.map jsToUpperChar)

/-- The hardcoded salt used when the EMAIL_SALT environment variable is
unset (src/index.ts line 8). -/
def fallbackEmailSalt : String := "fallback_salt_value_if_not_set_in_env"

/-- Embeds createEmailHash of src/index.ts: normalise the email
(lowercase then trim), surround it with the process-wide salt on both
sides, and take the SHA-256 of the UTF-8 bytes as lowercase hex. The
salt is process-wide configuration, passed here as a parameter. -/
def createEmailHash (emailSalt : String) (email : String) : String :=
  let normalizedEmail := normalizeEmail email
  let saltedEmail := emailSalt ++ normalizedEmail ++ emailSalt
  sha256hex (utf8 saltedEmail)

/-- JavaScript String.prototype.replace with a string pattern: only the
first occurrence of pat is replaced by repl; a string with no occurrence
is returned unchanged. -/
def replaceFirstL (pat repl : List Char) : List Char → List Char
  | [] => if pat.isPrefixOf ([] : List Char) then repl else []
  | c :: cs =>
    if pat.isPrefixOf (c :: cs) then repl ++ (c :: cs).drop pat.length
    else c :: replaceFirstL pat repl cs

/-- The source's s.replace(pat, repl) for string patterns. -/
def jsReplaceFirst (s pat repl : String) : String :=
  String.mk (replaceFirstL pat.data repl.data s.data)

/-! ## Session tokens -/

/-- Digit characters of JavaScript Number.prototype.toString(36). -/
def base36digit (n : Nat) : Char :=
  "0123456789abcdefghijklmnopqrstuvwxyz".data.getD n '0'

/-- Base-36 digit expansion, fuel-driven so it reduces structurally; the
fuel never runs out when it is at least the digit count. -/
def natToB36Aux : Nat → Nat → List Char
  | 0, _ => []
  | fuel + 1, n =>
    if n < 36 then [base36digit n]
    else natToB36Aux fuel (n / 36) ++ [base36digit (n % 36)]

/-- Base-36 digit expansion of a natural number, most significant first,
as toString(36) renders integers. -/
def natToB36Chars (n : Nat) : List Char := natToB36Aux (n + 1) n

/-- Embeds createSessionToken of src/index.ts: the base-36 digits
contributed by Math.random().toString(36).substring(2), concatenated
with Date.now().toString(36). The value drawn from Math.random and the
clock reading are abstracted by the two Nat inputs; the token is their
base-36 renderings concatenated, random component first. -/
def createSessionToken (rand now : Nat) : String :=
  String.mk (natToB36Chars rand ++ natToB36Chars now)

/-! ## External password hashing (Bun.password) -/

/-- The external Bun.password primitives the source calls: hash takes the
raw secret and the random salt material the runtime draws for that call;
verify takes the raw secret and a stored encoded hash. Both live in the
Bun runtime, outside this repository, so operations are parametrised
over this record. -/
structure PasswordApi where
  hash : String → Nat → String
  verify : String → String → Bool

/-! ## The user store (src/db.ts) -/

/-- A row of the users table: auto-incremented id, unique email hash,
encoded password hash, creation timestamp. -/
structure UserRecord where
  id : Nat
  email_hash : String
  password_hash : String
  created_at : Nat
deriving DecidableEq, Repr

/-- getUserByEmailHash of db.ts: SELECT * FROM users WHERE email_hash = ?,
the first matching row or none. -/
def getUserByEmailHash (users : List UserRecord) (emailHash : String) : Option UserRecord :=
  users.find? (fun r => r.email_hash == emailHash)

/-- updatePassword of db.ts: UPDATE users SET password_hash = ? WHERE
email_hash = ?. -/
def updatePassword (users : List UserRecord) (emailHash newHash : String) : List UserRecord :=
  users.map (fun r => if r.email_hash == emailHash then
    { r with password_hash := newHash } else r)

/-! ## Server state -/

/-- The mutable state of the process: the users table, the in-memory
activeSessions set, and the next auto-increment id the store assigns. -/
structure ServerState where
  users : List UserRecord
  sessions : Finset String
  nextId : Nat
deriving DecidableEq

/-- addUser of db.ts: INSERT INTO users (email_hash, password_hash); the
store assigns the id and the creation time. -/
def addUser (st : ServerState) (emailHash passwordHash : String) (now : Nat) : ServerState :=
  { st with
    users := st.users ++ [⟨st.nextId, emailHash, passwordHash, now⟩],
    nextId := st.nextId + 1 }

/-! ## Requests, responses and effect traces -/

/-- HTTP methods the handler distinguishes. -/
inductive Method
  | GET
  | POST
  | OPTIONS
deriving DecidableEq, Repr

/-- The fields the handler reads from a parsed JSON body. A field absent
from the JSON object is none. -/
structure RequestBody where
  email : Option String
  password : Option String
  currentPassword : Option String
  newPassword : Option String
deriving DecidableEq, Repr

/-- An inbound request as the handler sees it: path, method, the
authorization header if present, and the body (none models a body that
fails to parse as JSON, which parseRequestBody turns into null). -/
structure Request where
  path : String
  method : Method
  authorization : Option String
  body : Option RequestBody
deriving DecidableEq, Repr

/-- The per-request external inputs: the value Math.random draws for the
session token, the Date.now clock reading, and the salt material
Bun.password.hash draws when called. -/
structure ExtInput where
  rand : Nat
  now : Nat
  pwSalt : Nat
deriving DecidableEq, Repr

/-- The externally visible effects an operation can perform, recorded in
the order the source performs them. -/
inductive Event
  | parseBody
  | hashIdentifier
  | hashSecret
  | verifySecret
  | dbLookup
  | dbInsert
  | dbUpdate
  | dbList
  | sessionAdd
  | sessionDelete
deriving DecidableEq, Repr

/-- The JSON bodies the handler serialises, one constructor per distinct
shape the source builds. -/
inductive RespBody
  | errMsg (msg : String)
  | registered (token : String)
  | loggedIn (token : String)
  | userList (users : List UserRecord) (total : Nat)
  | passwordResetOk
  | loggedOut
  | debugHash (email h1 h2 h3 : String)
      (sameEmailSameHash caseInsensitive deterministic : Bool) (message : String)
  | apiInfo
  | routeNotFound
  | corsOk
deriving DecidableEq, Repr

/-- An HTTP response: status code and body. -/
structure Response where
  status : Nat
  body : RespBody
deriving DecidableEq, Repr

/-- What one request produces: the response, the successor state, and
the trace of effects performed. -/
structure HandlerResult where
  resp : Response
  state : ServerState
  events : List Event
deriving DecidableEq

/-! ## Token extraction and session check -/

/-- JavaScript truthiness of an optional string field: undefined, null
and the empty string are falsy. -/
def truthy : Option String → Bool
  | none => false
  | some s => s != ""

/-- The source's request.headers.get("authorization")?.replace("Bearer ", ""):
if the header is present, its first occurrence of the literal
"Bearer " is removed; a missing header stays undefined. -/
def extractSessionToken (authHeader : Option String) : Option String :=
  authHeader.map (fun s => jsReplaceFirst s "Bearer " "")

/-- The guard the protected endpoints share, from the source's
if (!sessionToken || !activeSessions.has(sessionToken)): the extracted
token must be truthy and a member of the active set. -/
def sessionAuthorized (sessions : Finset String) (authHeader : Option String) : Bool :=
  match extractSessionToken authHeader with
  | none => false
  | some t => (t != "") && decide (t ∈ sessions)

/-! ## The operations of the fetch handler (src/index.ts) -/

/-- The /register POST handler. The source parses the body, validates
truthiness of email and password, computes the email hash, computes the
password hash, only then looks up an existing user, and on the duplicate
path returns 400 without inserting; otherwise it inserts, issues a
session token, and returns it. -/
def registerOp (api : PasswordApi) (emailSalt : String) (st : ServerState)
    (body : Option RequestBody) (ext : ExtInput) : HandlerResult :=
  match body with
  | none => ⟨⟨400, .errMsg "Email and password required"⟩, st, [.parseBody]⟩
  | some b =>
    if truthy b.email && truthy b.password then
      let email := b.email.getD ""
      let password := b.password.getD ""
      let emailHash := createEmailHash emailSalt email
      let passwordHash := api.hash password ext.pwSalt
      match getUserByEmailHash st.users emailHash with
      | some _ =>
        ⟨⟨400, .errMsg "User already exists"⟩, st,
         [.parseBody, .hashIdentifier, .hashSecret, .dbLookup]⟩
      | none =>
        let st1 := addUser st emailHash passwordHash ext.now
        let token := createSessionToken ext.rand ext.now
        let st2 := { st1 with sessions := insert token st1.sessions }
        ⟨⟨200, .registered token⟩, st2,
         [.parseBody, .hashIdentifier, .hashSecret, .dbLookup, .dbInsert, .sessionAdd]⟩
    else ⟨⟨400, .errMsg "Email and password required"⟩, st, [.parseBody]⟩

/-- The /login POST handler: parse, validate, hash the email, look the
user up (missing user and failed verification both answer 401 with the
same "Invalid credentials" body), verify the password, then issue a
session token. -/
def loginOp (api : PasswordApi) (emailSalt : String) (st : ServerState)
    (body : Option RequestBody) (ext : ExtInput) : HandlerResult :=
  match body with
  | none => ⟨⟨400, .errMsg "Email and password required"⟩, st, [.parseBody]⟩
  | some b =>
    if truthy b.email && truthy b.password then
      let email := b.email.getD ""
      let password := b.password.getD ""
      let emailHash := createEmailHash emailSalt email
      match getUserByEmailHash st.users emailHash with
      | none =>
        ⟨⟨401, .errMsg "Invalid credentials"⟩, st,
         [.parseBody, .hashIdentifier, .dbLookup]⟩
      | some user =>
        if api.verify password user.password_hash then
          let token := createSessionToken ext.rand ext.now
          let st1 := { st with sessions := insert token st.sessions }
          ⟨⟨200, .loggedIn token⟩, st1,
           [.parseBody, .hashIdentifier, .dbLookup, .verifySecret, .sessionAdd]⟩
        else
          ⟨⟨401, .errMsg "Invalid credentials"⟩, st,
           [.parseBody, .hashIdentifier, .dbLookup, .verifySecret]⟩
    else ⟨⟨400, .errMsg "Email and password required"⟩, st, [.parseBody]⟩

/-- The /users GET handler: the bearer guard first, then the full table
with its count. -/
def usersOp (st : ServerState) (authHeader : Option String) : HandlerResult :=
  if sessionAuthorized st.sessions authHeader then
    ⟨⟨200, .userList st.users st.users.length⟩, st, [.dbList]⟩
  else ⟨⟨401, .errMsg "Authentication required"⟩, st, []⟩

/-- The /reset-password POST handler: the bearer guard first (before the
body is parsed), then field validation, email hash and lookup, current
password verification, and only then the new hash and the update. -/
def resetPasswordOp (api : PasswordApi) (emailSalt : String) (st : ServerState)
    (authHeader : Option String) (body : Option RequestBody) (ext : ExtInput) :
    HandlerResult :=
  if sessionAuthorized st.sessions authHeader then
    match body with
    | none =>
      ⟨⟨400, .errMsg "Email, current password, and new password required"⟩, st, [.parseBody]⟩
    | some b =>
      if truthy b.email && truthy b.currentPassword && truthy b.newPassword then
        let email := b.email.getD ""
        let emailHash := createEmailHash emailSalt email
        match getUserByEmailHash st.users emailHash with
        | none =>
          ⟨⟨404, .errMsg "User not found"⟩, st, [.parseBody, .hashIdentifier, .dbLookup]⟩
        | some user =>
          if api.verify (b.currentPassword.getD "") user.password_hash then
            let newHash := api.hash (b.newPassword.getD "") ext.pwSalt
            let st1 := { st with users := updatePassword st.users emailHash newHash }
            ⟨⟨200, .passwordResetOk⟩, st1,
             [.parseBody, .hashIdentifier, .dbLookup, .verifySecret, .hashSecret, .dbUpdate]⟩
          else
            ⟨⟨401, .errMsg "Current password is incorrect"⟩, st,
             [.parseBody, .hashIdentifier, .dbLookup, .verifySecret]⟩
      else
        ⟨⟨400, .errMsg "Email, current password, and new password required"⟩, st, [.parseBody]⟩
  else ⟨⟨401, .errMsg "Authentication required"⟩, st, []⟩

/-- The /logout POST handler: a truthy extracted token that is in the
active set is deleted (200); anything else answers 400 with
"No active session found". -/
def logoutOp (st : ServerState) (authHeader : Option String) : HandlerResult :=
  if sessionAuthorized st.sessions authHeader then
    let t := (extractSessionToken authHeader).getD ""
    ⟨⟨200, .loggedOut⟩, { st with sessions := st.sessions.erase t }, [.sessionDelete]⟩
  else ⟨⟨400, .errMsg "No active session found"⟩, st, []⟩

/-- The /debug/test-hash POST handler: no authentication; parses the
body, requires a truthy email, and returns the email hash computed
twice plus the hash of the uppercased email, with the comparison flags
the source computes. -/
def debugTestHashOp (emailSalt : String) (st : ServerState)
    (body : Option RequestBody) : HandlerResult :=
  match body with
  | none => ⟨⟨400, .errMsg "Email required"⟩, st, [.parseBody]⟩
  | some b =>
    if truthy b.email then
      let email := b.email.getD ""
      let firstHash := createEmailHash emailSalt email
      let secondHash := createEmailHash emailSalt email
      let upperCaseHash := createEmailHash emailSalt (jsToUpper email)
      ⟨⟨200, .debugHash email firstHash secondHash upperCaseHash
          (firstHash == secondHash) (firstHash == upperCaseHash)
          ((firstHash == secondHash) && (secondHash == upperCaseHash))
          (if (firstHash == secondHash) && (secondHash == upperCaseHash) then
            "Email hashing is working correctly" else "Email hashing has issues")⟩,
       st, [.parseBody, .hashIdentifier, .hashIdentifier, .hashIdentifier]⟩
    else ⟨⟨400, .errMsg "Email required"⟩, st, [.parseBody]⟩

/-- The fetch dispatch of Bun.serve: OPTIONS preflight, then the routes
in source order, then the API info page and the 404 fallback. -/
def fetchHandler (api : PasswordApi) (emailSalt : String) (st : ServerState)
    (req : Request) (ext : ExtInput) : HandlerResult :=
  if req.method = .OPTIONS then ⟨⟨200, .corsOk⟩, st, []⟩
  else if req.path = "/register" ∧ req.method = .POST then
    registerOp api emailSalt st req.body ext
  else if req.path = "/login" ∧ req.method = .POST then
    loginOp api emailSalt st req.body ext
  else if req.path = "/users" ∧ req.method = .GET then
    usersOp st req.authorization
  else if req.path = "/reset-password" ∧ req.method = .POST then
    resetPasswordOp api emailSalt st req.authorization req.body ext
  else if req.path = "/logout" ∧ req.method = .POST then
    logoutOp st req.authorization
  else if req.path = "/debug/test-hash" ∧ req.method = .POST then
    debugTestHashOp emailSalt st req.body
  else if req.path = "/" ∧ req.method = .GET then ⟨⟨200, .apiInfo⟩, st, []⟩
  else ⟨⟨404, .routeNotFound⟩, st, []⟩

/-! ## The error taxonomy of the specification -/

/-- The error kinds of the specification's taxonomy (spec section 7). -/
inductive ErrKind
  | ValidationError
  | AlreadyExists
  | InvalidCredentials
  | Unauthorized
  | NotFound
  | NoActiveSession
  | Internal
deriving DecidableEq, Repr

/-- The specification's mapping from observable responses to its error
taxonomy: InvalidCredentials covers both login failure messages and the
wrong current secret at reset, Unauthorized is the bearer guard,
NoActiveSession the logout miss, and 500 is Internal. -/
def errKindOf : Response → Option ErrKind
  | ⟨400, .errMsg "Email and password required"⟩ => some .ValidationError
  | ⟨400, .errMsg "Email, current password, and new password required"⟩ =>
      some .ValidationError
  | ⟨400, .errMsg "Email required"⟩ => some .ValidationError
  | ⟨400, .errMsg "User already exists"⟩ => some .AlreadyExists
  | ⟨401, .errMsg "Invalid credentials"⟩ => some .InvalidCredentials
  | ⟨401, .errMsg "Current password is incorrect"⟩ => some .InvalidCredentials
  | ⟨401, .errMsg "Authentication required"⟩ => some .Unauthorized
  | ⟨404, .errMsg "User not found"⟩ => some .NotFound
  | ⟨400, .errMsg "No active session found"⟩ => some .NoActiveSession
  | ⟨500, _⟩ => some .Internal
  | _ => none

/-! ## Request shorthands and a concrete password API instance -/

/-- A POST /register request with the given body fields. -/
def regReq (email password : String) : Request :=
  ⟨"/register", .POST, none, some ⟨some email, some password, none, none⟩⟩

/-- A POST /login request with the given body fields. -/
def loginReq (email password : String) : Request :=
  ⟨"/login", .POST, none, some ⟨some email, some password, none, none⟩⟩

/-- A POST /reset-password request with the given header and body fields. -/
def resetReq (auth : Option String) (email cur new : String) : Request :=
  ⟨"/reset-password", .POST, auth, some ⟨some email, none, some cur, some new⟩⟩

/-- A POST /logout request carrying the given authorization header. -/
def logoutReq (auth : Option String) : Request :=
  ⟨"/logout", .POST, auth, none⟩

/-- A concrete PasswordApi instance used only to evaluate theorems at
closed inputs: the encoded hash records the salt, and verification
recomputes it. It stands in for the external Argon2id primitives in
witnesses, which the real theorems quantify over. -/
def toyApi : PasswordApi where
  hash := fun raw salt => raw ++ "#" ++ toString salt
  verify := fun raw enc => enc == raw ++ "#0"

/-! ## Helper lemmas -/

/-- Rebuilding a string from its character list is the identity. -/
theorem string_mk_data (s : String) : String.mk s.data = s := by cases s; rfl

/-- A list is a Boolean prefix of itself followed by anything. -/
theorem isPrefixOf_append_self : ∀ (l rest : List Char), l.isPrefixOf (l ++ rest) = true := by
  intro l rest
  induction l with
  | nil => simp [List.isPrefixOf]
  | cons a as ih => simp [List.isPrefixOf, ih]

/-- Members of a Boolean prefix are members of the whole list. -/
theorem mem_of_isPrefixOf {c : Char} :
    ∀ (l1 l2 : List Char), l1.isPrefixOf l2 = true → c ∈ l1 → c ∈ l2 := by
  intro l1
  induction l1 with
  | nil => intro l2 _ hc; cases hc
  | cons a as ih =>
    intro l2 hp hc
    cases l2 with
    | nil => exact absurd hp (by simp [List.isPrefixOf])
    | cons b bs =>
      have hp' : a = b ∧ as.isPrefixOf bs = true := by
        simpa only [List.isPrefixOf, Bool.and_eq_true, beq_iff_eq] using hp
      rcases List.mem_cons.mp hc with rfl | hm
      · simp [hp'.1]
      · exact List.mem_cons_of_mem _ (ih bs hp'.2 hm)

/-- Replacing the first occurrence in a string that starts with the
pattern itself replaces that leading copy. -/
theorem replaceFirstL_append_self (pat repl rest : List Char) :
    replaceFirstL pat repl (pat ++ rest) = repl ++ rest := by
  cases pat with
  | nil =>
    cases rest with
    | nil => simp [replaceFirstL, List.isPrefixOf]
    | cons c cs => simp [replaceFirstL, List.isPrefixOf]
  | cons p ps =>
    show replaceFirstL (p :: ps) repl (p :: (ps ++ rest)) = repl ++ rest
    rw [replaceFirstL, if_pos]
    · congr 1
      show (p :: (ps ++ rest)).drop (ps.length + 1) = rest
      simp [List.drop_left]
    · exact isPrefixOf_append_self (p :: ps) rest

/-- A string with no space character contains no occurrence of
"Bearer ", so the replacement leaves it unchanged. -/
theorem replaceFirstL_no_space (repl : List Char) :
    ∀ l : List Char, ' ' ∉ l → replaceFirstL ("Bearer ".data) repl l = l := by
  intro l
  induction l with
  | nil => intro _; rfl
  | cons c cs ih =>
    intro h
    by_cases hp : ("Bearer ".data).isPrefixOf (c :: cs) = true
    · exact absurd (mem_of_isPrefixOf _ _ hp (by decide)) h
    · rw [replaceFirstL, if_neg hp]
      rw [ih (fun hm => h (List.mem_cons_of_mem _ hm))]

/-- Looking a record up by its own email hash after appending it to a
table where the hash was absent finds exactly that record. -/
theorem getUser_append_self (l : List UserRecord) (r : UserRecord)
    (h : getUserByEmailHash l r.email_hash = none) :
    getUserByEmailHash (l ++ [r]) r.email_hash = some r := by
  unfold getUserByEmailHash at *
  rw [List.find?_append, h]
  simp

/-- Header extraction strips a leading "Bearer " from the authorization
header, whatever follows it. -/
theorem extract_bearer (t : String) : extractSessionToken (some ("Bearer " ++ t)) = some t := by
  show some (jsReplaceFirst ("Bearer " ++ t) "Bearer " "") = some t
  congr 1
  unfold jsReplaceFirst
  have hd : ("Bearer " ++ t).data = "Bearer ".data ++ t.data := by simp
  rw [hd, show ("" : String).data = [] from rfl, replaceFirstL_append_self]
  exact string_mk_data t

/-- Header extraction leaves a space-free header unchanged: "Bearer "
contains a space, so no occurrence can exist. -/
theorem extract_no_space (t : String) (h : ' ' ∉ t.data) :
    extractSessionToken (some t) = some t := by
  show some (jsReplaceFirst t "Bearer " "") = some t
  congr 1
  unfold jsReplaceFirst
  rw [show ("" : String).data = [] from rfl, replaceFirstL_no_space [] t.data h]

/-- Base-36 digits are never the space character. -/
theorem base36digit_ne_space (k : Nat) : base36digit k ≠ ' ' := by
  unfold base36digit
  by_cases hk : k < 36
  · interval_cases k <;> decide
  · rw [List.getD_eq_default]
    · decide
    · have hlen : ("0123456789abcdefghijklmnopqrstuvwxyz".data).length = 36 := by decide
      simp at hk
      omega

/-- No space character appears in a base-36 expansion. -/
theorem natToB36Aux_no_space (fuel : Nat) : ∀ n, ' ' ∉ natToB36Aux fuel n := by
  induction fuel with
  | zero => intro n h; simp [natToB36Aux] at h
  | succ f ih =>
    intro n hmem
    by_cases h36 : n < 36
    · rw [natToB36Aux, if_pos h36] at hmem
      exact base36digit_ne_space n (List.mem_singleton.mp hmem).symm
    · rw [natToB36Aux, if_neg h36] at hmem
      rcases List.mem_append.mp hmem with h1 | h2
      · exact ih (n / 36) h1
      · exact base36digit_ne_space (n % 36) (List.mem_singleton.mp h2).symm

/-- Session tokens contain no space character: both components are
base-36 digit strings. -/
theorem createSessionToken_no_space (rand now : Nat) :
    ' ' ∉ (createSessionToken rand now).data := by
  intro h
  rcases List.mem_append.mp h with h1 | h2
  · exact natToB36Aux_no_space _ _ h1
  · exact natToB36Aux_no_space _ _ h2

/-- A base-36 expansion is never the empty list. -/
theorem natToB36Chars_ne_nil (n : Nat) : natToB36Chars n ≠ [] := by
  unfold natToB36Chars natToB36Aux
  by_cases h36 : n < 36 <;> simp [h36]

/-- Session tokens are never the empty string. -/
theorem createSessionToken_ne_empty (rand now : Nat) : createSessionToken rand now ≠ "" := by
  intro h
  have hd : natToB36Chars rand ++ natToB36Chars now = [] := congrArg String.data h
  exact natToB36Chars_ne_nil rand (List.append_eq_nil.mp hd).1

/-! ## The claims -/

/-- C1, counterexample to the claim as stated: a register request for an
identifier whose hash already has a record does fail with AlreadyExists,
but the hashSecret effect (Bun.password.hash of the submitted secret)
occurs on that path, because the source computes the password hash
before the existence lookup. -/
theorem register_duplicate_computes_secret_hash_counterexample :
    (fetchHandler toyApi "s" ⟨[⟨1, createEmailHash "s" "a@b.com", "old#0", 0⟩], ∅, 2⟩
        (regReq "a@b.com" "pw") ⟨0, 0, 0⟩).resp = ⟨400, .errMsg "User already exists"⟩ ∧
    Event.hashSecret ∈
      (fetchHandler toyApi "s" ⟨[⟨1, createEmailHash "s" "a@b.com", "old#0", 0⟩], ∅, 2⟩
        (regReq "a@b.com" "pw") ⟨0, 0, 0⟩).events := by
  constructor <;> simp [fetchHandler, regReq, registerOp, truthy, getUserByEmailHash]

/-- C1 (amended): registering an identifier whose hash already has a
record fails with AlreadyExists (400, "User already exists") and
performs no insert, the state is returned unchanged; registering the
same identifier twice from a fresh hash succeeds the first time and
fails with AlreadyExists the second time. However, contrary to the
claimed step order, the source computes hash_secret before the
existence lookup, so the hashSecret effect occurs on the AlreadyExists
path too, as the recorded event order parseBody, hashIdentifier,
hashSecret, dbLookup shows. -/
theorem register_duplicate_behavior (api : PasswordApi) (salt : String)
    (st : ServerState) (ext ext2 : ExtInput) (email password password2 : String)
    (he : email ≠ "") (hp : password ≠ "") (hp2 : password2 ≠ "") :
    (∀ u, getUserByEmailHash st.users (createEmailHash salt email) = some u →
      fetchHandler api salt st (regReq email password) ext =
        ⟨⟨400, .errMsg "User already exists"⟩, st,
         [.parseBody, .hashIdentifier, .hashSecret, .dbLookup]⟩) ∧
    (getUserByEmailHash st.users (createEmailHash salt email) = none →
      fetchHandler api salt st (regReq email password) ext =
        ⟨⟨200, .registered (createSessionToken ext.rand ext.now)⟩,
         ⟨st.users ++ [⟨st.nextId, createEmailHash salt email, api.hash password ext.pwSalt, ext.now⟩],
          insert (createSessionToken ext.rand ext.now) st.sessions, st.nextId + 1⟩,
         [.parseBody, .hashIdentifier, .hashSecret, .dbLookup, .dbInsert, .sessionAdd]⟩ ∧
      fetchHandler api salt
          ⟨st.users ++ [⟨st.nextId, createEmailHash salt email, api.hash password ext.pwSalt, ext.now⟩],
           insert (createSessionToken ext.rand ext.now) st.sessions, st.nextId + 1⟩
          (regReq email password2) ext2 =
        ⟨⟨400, .errMsg "User already exists"⟩,
         ⟨st.users ++ [⟨st.nextId, createEmailHash salt email, api.hash password ext.pwSalt, ext.now⟩],
          insert (createSessionToken ext.rand ext.now) st.sessions, st.nextId + 1⟩,
         [.parseBody, .hashIdentifier, .hashSecret, .dbLookup]⟩) := by
  constructor
  · intro u hl
    simp [fetchHandler, regReq, registerOp, truthy, he, hp, hl]
  · intro hl
    have hfind2 : getUserByEmailHash
        (st.users ++ [⟨st.nextId, createEmailHash salt email, api.hash password ext.pwSalt, ext.now⟩])
        (createEmailHash salt email) =
        some ⟨st.nextId, createEmailHash salt email, api.hash password ext.pwSalt, ext.now⟩ :=
      getUser_append_self st.users
        ⟨st.nextId, createEmailHash salt email, api.hash password ext.pwSalt, ext.now⟩ hl
    constructor
    · simp [fetchHandler, regReq, registerOp, truthy, he, hp, hl, addUser]
    · simp [fetchHandler, regReq, registerOp, truthy, he, hp2, hfind2]

/-- Witness for C1: the amended behavior evaluated at a concrete run,
first register on the empty store succeeds and inserts, the second
register of the same identifier fails with AlreadyExists, leaves the
state unchanged, and still records the hashSecret effect. -/
theorem register_duplicate_behavior_witness :
    ("a@b.com" : String) ≠ "" ∧
    getUserByEmailHash ([] : List UserRecord) (createEmailHash "s" "a@b.com") = none ∧
    (fetchHandler toyApi "s" ⟨[], ∅, 1⟩ (regReq "a@b.com" "pw") ⟨0, 0, 0⟩ =
      ⟨⟨200, .registered (createSessionToken 0 0)⟩,
       ⟨[⟨1, createEmailHash "s" "a@b.com", toyApi.hash "pw" 0, 0⟩],
        insert (createSessionToken 0 0) ∅, 2⟩,
       [.parseBody, .hashIdentifier, .hashSecret, .dbLookup, .dbInsert, .sessionAdd]⟩ ∧
     fetchHandler toyApi "s"
        ⟨[⟨1, createEmailHash "s" "a@b.com", toyApi.hash "pw" 0, 0⟩],
         insert (createSessionToken 0 0) ∅, 2⟩
        (regReq "a@b.com" "pw2") ⟨1, 1, 1⟩ =
      ⟨⟨400, .errMsg "User already exists"⟩,
       ⟨[⟨1, createEmailHash "s" "a@b.com", toyApi.hash "pw" 0, 0⟩],
        insert (createSessionToken 0 0) ∅, 2⟩,
       [.parseBody, .hashIdentifier, .hashSecret, .dbLookup]⟩) :=
  ⟨by decide, rfl,
   (register_duplicate_behavior toyApi "s" ⟨[], ∅, 1⟩ ⟨0, 0, 0⟩ ⟨1, 1, 1⟩
     "a@b.com" "pw" "pw2" (by decide) (by decide) (by decide)).2 rfl⟩

/-- C2: login with an unknown identifier and login with a known
identifier but a secret that fails verification produce the identical
observable response, status 401 with body "Invalid credentials", the
InvalidCredentials kind of the taxonomy, and leave the state unchanged,
so a caller cannot distinguish the two cases. -/
theorem login_enumeration_resistance (api : PasswordApi) (salt : String)
    (st : ServerState) (ext : ExtInput) (email password : String)
    (he : email ≠ "") (hp : password ≠ "") :
    (getUserByEmailHash st.users (createEmailHash salt email) = none →
      (fetchHandler api salt st (loginReq email password) ext).resp =
          ⟨401, .errMsg "Invalid credentials"⟩ ∧
        (fetchHandler api salt st (loginReq email password) ext).state = st) ∧
    (∀ u, getUserByEmailHash st.users (createEmailHash salt email) = some u →
      api.verify password u.password_hash = false →
      (fetchHandler api salt st (loginReq email password) ext).resp =
          ⟨401, .errMsg "Invalid credentials"⟩ ∧
        (fetchHandler api salt st (loginReq email password) ext).state = st) ∧
    errKindOf ⟨401, .errMsg "Invalid credentials"⟩ = some .InvalidCredentials := by
  refine ⟨fun hl => ?_, fun u hl hv => ?_, rfl⟩
  · constructor <;> simp [fetchHandler, loginReq, loginOp, truthy, he, hp, hl]
  · constructor <;> simp [fetchHandler, loginReq, loginOp, truthy, he, hp, hl, hv]

/-- Witness for C2: both login failure modes evaluated at concrete
stores yield the same 401 "Invalid credentials" response. -/
theorem login_enumeration_resistance_witness :
    ("a@b.com" : String) ≠ "" ∧ ("pw" : String) ≠ "" ∧
    getUserByEmailHash (⟨[], ∅, 1⟩ : ServerState).users (createEmailHash "s" "a@b.com") = none ∧
    getUserByEmailHash [⟨1, createEmailHash "s" "a@b.com", "old#0", 0⟩]
        (createEmailHash "s" "a@b.com") =
      some ⟨1, createEmailHash "s" "a@b.com", "old#0", 0⟩ ∧
    toyApi.verify "pw" "old#0" = false ∧
    (fetchHandler toyApi "s" ⟨[], ∅, 1⟩ (loginReq "a@b.com" "pw") ⟨0, 0, 0⟩).resp =
      ⟨401, .errMsg "Invalid credentials"⟩ ∧
    (fetchHandler toyApi "s" ⟨[⟨1, createEmailHash "s" "a@b.com", "old#0", 0⟩], ∅, 2⟩
        (loginReq "a@b.com" "bad") ⟨0, 0, 0⟩).resp =
      ⟨401, .errMsg "Invalid credentials"⟩ := by
  have hfind : getUserByEmailHash [⟨1, createEmailHash "s" "a@b.com", "old#0", 0⟩]
      (createEmailHash "s" "a@b.com") = some ⟨1, createEmailHash "s" "a@b.com", "old#0", 0⟩ := by
    simp [getUserByEmailHash]
  refine ⟨by decide, by decide, rfl, hfind, by decide, ?_, ?_⟩
  · exact ((login_enumeration_resistance toyApi "s" ⟨[], ∅, 1⟩ ⟨0, 0, 0⟩ "a@b.com" "pw"
      (by decide) (by decide)).1 rfl).1
  · exact ((login_enumeration_resistance toyApi "s"
      ⟨[⟨1, createEmailHash "s" "a@b.com", "old#0", 0⟩], ∅, 2⟩ ⟨0, 0, 0⟩ "a@b.com" "bad"
      (by decide) (by decide)).2.1 ⟨1, createEmailHash "s" "a@b.com", "old#0", 0⟩ hfind
      (by decide)).1

/-- C3: createEmailHash is deterministic (it is a pure function, so
equal inputs give identical output on every call), and inputs with the
same normalisation (lowercase then trim, so inputs differing only in
ASCII letter case or leading and trailing whitespace) hash identically;
in particular " User\x40Example.com " and "user\x40example.com" collide
for every salt. -/
theorem createEmailHash_norm_invariant (salt s t : String)
    (h : normalizeEmail s = normalizeEmail t) :
    createEmailHash salt s = createEmailHash salt s ∧
    createEmailHash salt s = createEmailHash salt t ∧
    createEmailHash salt " User@Example.com " = createEmailHash salt "user@example.com" := by
  refine ⟨rfl, ?_, ?_⟩
  · unfold createEmailHash
    rw [h]
  · unfold createEmailHash
    have hx : normalizeEmail " User@Example.com " = normalizeEmail "user@example.com" := by decide
    rw [hx]

/-- Witness for C3: the normalisation hypothesis holds at the example
strings of the specification, under the fallback salt. -/
theorem createEmailHash_norm_invariant_witness :
    normalizeEmail " User@Example.com " = normalizeEmail "user@example.com" ∧
    (createEmailHash fallbackEmailSalt " User@Example.com " =
       createEmailHash fallbackEmailSalt " User@Example.com " ∧
     createEmailHash fallbackEmailSalt " User@Example.com " =
       createEmailHash fallbackEmailSalt "user@example.com" ∧
     createEmailHash fallbackEmailSalt " User@Example.com " =
       createEmailHash fallbackEmailSalt "user@example.com") :=
  ⟨by decide, createEmailHash_norm_invariant fallbackEmailSalt " User@Example.com "
      "user@example.com" (by decide)⟩

/-- C4: the session token lifecycle. A token issued by a successful
register or login is in the active set immediately; a logout bearing it
revokes it (200) after which it is no longer a member; a second logout
with the same token, a logout with an unknown token, and a logout with
a missing authorization header all answer 400 "No active session
found", the NoActiveSession kind, which is distinct from Unauthorized. -/
theorem session_token_lifecycle (api : PasswordApi) (salt : String)
    (st : ServerState) (ext : ExtInput) (email password t : String) (u : UserRecord)
    (he : email ≠ "") (hp : password ≠ "") (ht : t ≠ "") :
    (getUserByEmailHash st.users (createEmailHash salt email) = none →
      createSessionToken ext.rand ext.now ∈
        (fetchHandler api salt st (regReq email password) ext).state.sessions) ∧
    (getUserByEmailHash st.users (createEmailHash salt email) = some u →
      api.verify password u.password_hash = true →
      createSessionToken ext.rand ext.now ∈
        (fetchHandler api salt st (loginReq email password) ext).state.sessions) ∧
    (t ∈ st.sessions →
      fetchHandler api salt st (logoutReq (some ("Bearer " ++ t))) ext =
        ⟨⟨200, .loggedOut⟩, ⟨st.users, st.sessions.erase t, st.nextId⟩, [.sessionDelete]⟩ ∧
      t ∉ st.sessions.erase t ∧
      fetchHandler api salt ⟨st.users, st.sessions.erase t, st.nextId⟩
          (logoutReq (some ("Bearer " ++ t))) ext =
        ⟨⟨400, .errMsg "No active session found"⟩,
         ⟨st.users, st.sessions.erase t, st.nextId⟩, []⟩) ∧
    (t ∉ st.sessions →
      fetchHandler api salt st (logoutReq (some ("Bearer " ++ t))) ext =
        ⟨⟨400, .errMsg "No active session found"⟩, st, []⟩) ∧
    fetchHandler api salt st (logoutReq none) ext =
      ⟨⟨400, .errMsg "No active session found"⟩, st, []⟩ ∧
    errKindOf ⟨400, .errMsg "No active session found"⟩ = some .NoActiveSession ∧
    errKindOf ⟨400, .errMsg "No active session found"⟩ ≠ some .Unauthorized := by
  refine ⟨fun hl => ?_, fun hl hv => ?_, fun hmem => ?_, fun hnot => ?_, ?_, rfl, by decide⟩
  · simp [fetchHandler, regReq, registerOp, truthy, he, hp, hl, addUser]
  · simp [fetchHandler, loginReq, loginOp, truthy, he, hp, hl, hv]
  · refine ⟨?_, Finset.not_mem_erase t st.sessions, ?_⟩
    · simp [fetchHandler, logoutReq, logoutOp, sessionAuthorized, extract_bearer, ht, hmem]
    · simp [fetchHandler, logoutReq, logoutOp, sessionAuthorized, extract_bearer,
        Finset.not_mem_erase t st.sessions]
  · simp [fetchHandler, logoutReq, logoutOp, sessionAuthorized, extract_bearer, hnot]
  · simp [fetchHandler, logoutReq, logoutOp, sessionAuthorized, extractSessionToken]

/-- Witness for C4: a concrete run of issue, validate, revoke, and the
double revoke answering NoActiveSession. -/
theorem session_token_lifecycle_witness :
    (createSessionToken 0 0 ∈
      (fetchHandler toyApi "s" ⟨[], {"tok"}, 1⟩ (regReq "a@b.com" "pw") ⟨0, 0, 0⟩).state.sessions) ∧
    (createSessionToken 0 0 ∈
      (fetchHandler toyApi "s" ⟨[⟨1, createEmailHash "s" "a@b.com", "old#0", 0⟩], ∅, 2⟩
        (loginReq "a@b.com" "old") ⟨0, 0, 0⟩).state.sessions) ∧
    (fetchHandler toyApi "s" ⟨[], {"tok"}, 1⟩ (logoutReq (some ("Bearer " ++ "tok"))) ⟨0, 0, 0⟩ =
      ⟨⟨200, .loggedOut⟩, ⟨[], ({"tok"} : Finset String).erase "tok", 1⟩, [.sessionDelete]⟩) ∧
    ("tok" ∉ ({"tok"} : Finset String).erase "tok") ∧
    (fetchHandler toyApi "s" ⟨[], ({"tok"} : Finset String).erase "tok", 1⟩
        (logoutReq (some ("Bearer " ++ "tok"))) ⟨0, 0, 0⟩ =
      ⟨⟨400, .errMsg "No active session found"⟩,
       ⟨[], ({"tok"} : Finset String).erase "tok", 1⟩, []⟩) := by
  have hfind : getUserByEmailHash [⟨1, createEmailHash "s" "a@b.com", "old#0", 0⟩]
      (createEmailHash "s" "a@b.com") = some ⟨1, createEmailHash "s" "a@b.com", "old#0", 0⟩ := by
    simp [getUserByEmailHash]
  have T1 := session_token_lifecycle toyApi "s" ⟨[], {"tok"}, 1⟩ ⟨0, 0, 0⟩
    "a@b.com" "pw" "tok" ⟨1, createEmailHash "s" "a@b.com", "old#0", 0⟩
    (by decide) (by decide) (by decide)
  have T2 := session_token_lifecycle toyApi "s"
    ⟨[⟨1, createEmailHash "s" "a@b.com", "old#0", 0⟩], ∅, 2⟩ ⟨0, 0, 0⟩
    "a@b.com" "old" "tok" ⟨1, createEmailHash "s" "a@b.com", "old#0", 0⟩
    (by decide) (by decide) (by decide)
  have hm : ("tok" : String) ∈ ({"tok"} : Finset String) := by decide
  obtain ⟨hrevoke, hgone, hsecond⟩ := T1.2.2.1 hm
  exact ⟨T1.1 rfl, T2.2.1 hfind (by decide), hrevoke, hgone, hsecond⟩

/-- C5: a password reset with a valid session, a known identifier, and
a current secret that fails verification answers 401 "Current password
is incorrect", the InvalidCredentials kind, leaves the whole state (in
particular the stored secret hash) unchanged and performs no database
update, so a subsequent login with a secret the stored hash still
verifies succeeds; and, for every reset request whatsoever, a database
update only ever happens after verification of the submitted current
secret against the stored hash returned true. -/
theorem reset_wrong_secret_leaves_hash (api : PasswordApi) (salt : String)
    (st : ServerState) (ext ext2 : ExtInput) (auth : Option String)
    (email cur newPw oldPw : String) (u : UserRecord)
    (hauth : sessionAuthorized st.sessions auth = true)
    (he : email ≠ "") (hc : cur ≠ "") (hn : newPw ≠ "")
    (hl : getUserByEmailHash st.users (createEmailHash salt email) = some u)
    (hv : api.verify cur u.password_hash = false) :
    fetchHandler api salt st (resetReq auth email cur newPw) ext =
      ⟨⟨401, .errMsg "Current password is incorrect"⟩, st,
       [.parseBody, .hashIdentifier, .dbLookup, .verifySecret]⟩ ∧
    errKindOf ⟨401, .errMsg "Current password is incorrect"⟩ = some .InvalidCredentials ∧
    (api.verify oldPw u.password_hash = true → oldPw ≠ "" →
      (fetchHandler api salt st (loginReq email oldPw) ext2).resp =
        ⟨200, .loggedIn (createSessionToken ext2.rand ext2.now)⟩) ∧
    (∀ (st' : ServerState) (auth' : Option String) (b' : Option RequestBody) (ext' : ExtInput),
      Event.dbUpdate ∈
        (fetchHandler api salt st' ⟨"/reset-password", .POST, auth', b'⟩ ext').events →
      ∃ u', getUserByEmailHash st'.users
          (createEmailHash salt ((b'.getD ⟨none, none, none, none⟩).email.getD "")) = some u' ∧
        api.verify ((b'.getD ⟨none, none, none, none⟩).currentPassword.getD "")
          u'.password_hash = true) := by
  refine ⟨?_, rfl, fun hvo ho => ?_, fun st' auth' b' ext' hmem => ?_⟩
  · simp [fetchHandler, resetReq, resetPasswordOp, truthy, hauth, he, hc, hn, hl, hv]
  · simp [fetchHandler, loginReq, loginOp, truthy, he, ho, hl, hvo]
  · by_cases hs : sessionAuthorized st'.sessions auth' = true
    · cases b' with
      | none => simp [fetchHandler, resetPasswordOp, hs] at hmem
      | some b =>
        by_cases hf : (truthy b.email && truthy b.currentPassword && truthy b.newPassword) = true
        · cases hlk : getUserByEmailHash st'.users (createEmailHash salt (b.email.getD "")) with
          | none => simp [fetchHandler, resetPasswordOp, hs, hf, hlk] at hmem
          | some u' =>
            by_cases hv' : api.verify (b.currentPassword.getD "") u'.password_hash = true
            · exact ⟨u', by simpa using hlk, by simpa using hv'⟩
            · simp [fetchHandler, resetPasswordOp, hs, hf, hlk, hv'] at hmem
        · simp [fetchHandler, resetPasswordOp, hs, hf] at hmem
    · simp [fetchHandler, resetPasswordOp, hs] at hmem

/-- Witness for C5: a concrete reset with the wrong current secret
fails with 401 and the old secret still logs in afterwards. -/
theorem reset_wrong_secret_leaves_hash_witness :
    (fetchHandler toyApi "s"
        ⟨[⟨1, createEmailHash "s" "a@b.com", "old#0", 0⟩], {"tok"}, 2⟩
        (resetReq (some ("Bearer " ++ "tok")) "a@b.com" "bad" "new") ⟨0, 0, 0⟩ =
      ⟨⟨401, .errMsg "Current password is incorrect"⟩,
       ⟨[⟨1, createEmailHash "s" "a@b.com", "old#0", 0⟩], {"tok"}, 2⟩,
       [.parseBody, .hashIdentifier, .dbLookup, .verifySecret]⟩) ∧
    ((fetchHandler toyApi "s"
        ⟨[⟨1, createEmailHash "s" "a@b.com", "old#0", 0⟩], {"tok"}, 2⟩
        (loginReq "a@b.com" "old") ⟨0, 0, 0⟩).resp =
      ⟨200, .loggedIn (createSessionToken 0 0)⟩) := by
  have hfind : getUserByEmailHash [⟨1, createEmailHash "s" "a@b.com", "old#0", 0⟩]
      (createEmailHash "s" "a@b.com") = some ⟨1, createEmailHash "s" "a@b.com", "old#0", 0⟩ := by
    simp [getUserByEmailHash]
  have T := reset_wrong_secret_leaves_hash toyApi "s"
    ⟨[⟨1, createEmailHash "s" "a@b.com", "old#0", 0⟩], {"tok"}, 2⟩ ⟨0, 0, 0⟩ ⟨0, 0, 0⟩
    (some ("Bearer " ++ "tok")) "a@b.com" "bad" "new" "old"
    ⟨1, createEmailHash "s" "a@b.com", "old#0", 0⟩
    (by decide) (by decide) (by decide) (by decide) hfind (by decide)
  exact ⟨T.1, T.2.2.1 (by decide) (by decide)⟩

/-- C6: a reset-password request whose bearer token is missing or not
in the active set answers 401 "Authentication required" with the state
unchanged and an empty effect trace: in particular the body (whatever
it is, well-formed or not) is never parsed, the user store is neither
read nor written, and the session set is untouched. -/
theorem reset_unauthorized_before_body (api : PasswordApi) (salt : String)
    (st : ServerState) (auth : Option String) (body : Option RequestBody) (ext : ExtInput)
    (h : sessionAuthorized st.sessions auth = false) :
    fetchHandler api salt st ⟨"/reset-password", .POST, auth, body⟩ ext =
      ⟨⟨401, .errMsg "Authentication required"⟩, st, []⟩ := by
  simp [fetchHandler, resetPasswordOp, h]

/-- Witness for C6: a reset with no authorization header on an empty
session set is rejected with no effects at all. -/
theorem reset_unauthorized_before_body_witness :
    sessionAuthorized (⟨[], ∅, 1⟩ : ServerState).sessions none = false ∧
    fetchHandler toyApi "s" ⟨[], ∅, 1⟩
        ⟨"/reset-password", .POST, none, some ⟨some "a@b.com", none, some "x", some "y"⟩⟩
        ⟨0, 0, 0⟩ =
      ⟨⟨401, .errMsg "Authentication required"⟩, ⟨[], ∅, 1⟩, []⟩ :=
  ⟨rfl, reset_unauthorized_before_body toyApi "s" ⟨[], ∅, 1⟩ none
    (some ⟨some "a@b.com", none, some "x", some "y"⟩) ⟨0, 0, 0⟩ rfl⟩

/-- C9: the POST /debug/test-hash endpoint performs no authentication.
For every authorization header (including none at all) and every
truthy email field, it answers 200 with createEmailHash of the
submitted email under the process-wide salt (computed twice, plus the
hash of the uppercased email), leaving the state unchanged: a public
oracle for the identifier-hashing function. -/
theorem debug_test_hash_public_oracle (api : PasswordApi) (salt : String)
    (st : ServerState) (auth : Option String) (ext : ExtInput) (email : String)
    (p c n : Option String) (he : email ≠ "") :
    fetchHandler api salt st ⟨"/debug/test-hash", .POST, auth, some ⟨some email, p, c, n⟩⟩ ext =
      ⟨⟨200, .debugHash email (createEmailHash salt email) (createEmailHash salt email)
          (createEmailHash salt (jsToUpper email)) true
          (createEmailHash salt email == createEmailHash salt (jsToUpper email))
          (createEmailHash salt email == createEmailHash salt (jsToUpper email))
          (if createEmailHash salt email == createEmailHash salt (jsToUpper email) then
            "Email hashing is working correctly" else "Email hashing has issues")⟩,
       st, [.parseBody, .hashIdentifier, .hashIdentifier, .hashIdentifier]⟩ := by
  simp [fetchHandler, debugTestHashOp, truthy, he]

/-- Witness for C9: the debug endpoint answers a request carrying an
invalid bearer token with the hash of the submitted email. -/
theorem debug_test_hash_public_oracle_witness :
    ("user@example.com" : String) ≠ "" ∧
    fetchHandler toyApi "s" ⟨[], ∅, 1⟩
        ⟨"/debug/test-hash", .POST, some "not-a-valid-token",
         some ⟨some "user@example.com", none, none, none⟩⟩ ⟨0, 0, 0⟩ =
      ⟨⟨200, .debugHash "user@example.com" (createEmailHash "s" "user@example.com")
          (createEmailHash "s" "user@example.com")
          (createEmailHash "s" (jsToUpper "user@example.com")) true
          (createEmailHash "s" "user@example.com" ==
            createEmailHash "s" (jsToUpper "user@example.com"))
          (createEmailHash "s" "user@example.com" ==
            createEmailHash "s" (jsToUpper "user@example.com"))
          (if createEmailHash "s" "user@example.com" ==
              createEmailHash "s" (jsToUpper "user@example.com") then
            "Email hashing is working correctly" else "Email hashing has issues")⟩,
       ⟨[], ∅, 1⟩, [.parseBody, .hashIdentifier, .hashIdentifier, .hashIdentifier]⟩ :=
  ⟨by decide, debug_test_hash_public_oracle toyApi "s" ⟨[], ∅, 1⟩ (some "not-a-valid-token")
    ⟨0, 0, 0⟩ "user@example.com" none none none (by decide)⟩

/-- C10: bearer extraction removes exactly the first occurrence of the
literal "Bearer " from the authorization header; consequently a header
that is exactly an active token (no "Bearer " prefix, and no space, as
every issued token) is accepted by /users, /logout and /reset-password,
a header starting with "Bearer " has that first occurrence stripped
whatever follows, only the first of two occurrences is removed, and
every token createSessionToken produces is nonempty and space-free. -/
theorem bearer_extraction_behavior (st : ServerState) (t hdr : String)
    (hne : t ≠ "") (hsp : ' ' ∉ t.data) (hmem : t ∈ st.sessions) :
    (∀ s : String, extractSessionToken (some s) = some (jsReplaceFirst s "Bearer " "")) ∧
    jsReplaceFirst ("Bearer " ++ hdr) "Bearer " "" = hdr ∧
    jsReplaceFirst "Bearer Bearer tok" "Bearer " "" = "Bearer tok" ∧
    extractSessionToken (some t) = some t ∧
    (∀ (api : PasswordApi) (salt : String) (ext : ExtInput) (b : Option RequestBody),
      fetchHandler api salt st ⟨"/users", .GET, some t, b⟩ ext =
        ⟨⟨200, .userList st.users st.users.length⟩, st, [.dbList]⟩) ∧
    (∀ (api : PasswordApi) (salt : String) (ext : ExtInput),
      fetchHandler api salt st (logoutReq (some t)) ext =
        ⟨⟨200, .loggedOut⟩, ⟨st.users, st.sessions.erase t, st.nextId⟩, [.sessionDelete]⟩) ∧
    (∀ (api : PasswordApi) (salt : String) (ext : ExtInput),
      fetchHandler api salt st ⟨"/reset-password", .POST, some t, none⟩ ext =
        ⟨⟨400, .errMsg "Email, current password, and new password required"⟩, st, [.parseBody]⟩) ∧
    (∀ rand now : Nat, ' ' ∉ (createSessionToken rand now).data ∧
      createSessionToken rand now ≠ "") := by
  refine ⟨fun s => rfl, Option.some.inj (extract_bearer hdr), by decide,
    extract_no_space t hsp, fun api salt ext b => ?_, fun api salt ext => ?_,
    fun api salt ext => ?_,
    fun rand now => ⟨createSessionToken_no_space rand now, createSessionToken_ne_empty rand now⟩⟩
  · simp [fetchHandler, usersOp, sessionAuthorized, extract_no_space t hsp, hne, hmem]
  · simp [fetchHandler, logoutReq, logoutOp, sessionAuthorized, extract_no_space t hsp, hne, hmem]
  · simp [fetchHandler, resetPasswordOp, sessionAuthorized, extract_no_space t hsp, hne, hmem]

/-- Witness for C10: a /users request whose header is exactly an active
token, with no "Bearer " prefix, is accepted. -/
theorem bearer_extraction_behavior_witness :
    (fetchHandler toyApi "s" ⟨[], {"abc"}, 1⟩ ⟨"/users", .GET, some "abc", none⟩ ⟨0, 0, 0⟩ =
      ⟨⟨200, .userList [] 0⟩, ⟨[], {"abc"}, 1⟩, [.dbList]⟩) ∧
    extractSessionToken (some "abc") = some "abc" ∧
    jsReplaceFirst ("Bearer " ++ "xyz") "Bearer " "" = "xyz" ∧
    jsReplaceFirst "Bearer Bearer tok" "Bearer " "" = "Bearer tok" := by
  have T := bearer_extraction_behavior ⟨[], {"abc"}, 1⟩ "abc" "xyz"
    (by decide) (by decide) (by decide)
  exact ⟨T.2.2.2.2.1 toyApi "s" ⟨0, 0, 0⟩ none, T.2.2.2.1, T.2.1, T.2.2.1⟩
